import Mathlib

/-!
Shallow embedding of `app.py` (an AI habit-tracker dashboard).

The embedded operations are the weather fetch `get_weather`, the random
creature fetch `get_pokemon`, the report composer `generate_report`, and the
achievement-rate computation `achv_rate`, together with a model of the
`st.cache_data` memoization wrapper that decorates `get_weather`.

Modelling conventions:
* Python values flowing through the JSON-handling code are modelled by the
  `Json` type.  JSON numbers are modelled by `Int`; none of the embedded code
  performs arithmetic on JSON numbers, it only moves them around, so the
  carrier type of numerals is irrelevant to the properties proved here.
* A Python exception escaping an expression is modelled by `Except Unit`
  (`.error ()` = "some exception was raised").  The `try/except` blocks of
  the source correspond to `Except.toOption`.
* The network is modelled by an explicit `HttpOutcome` argument: either a
  transport error (`requests.get` raised) or a response with a status code
  and an optional parsed JSON body (`none` = `r.json()` raised).
* Instrumented variants (`…_calls`) additionally return the number of
  network calls issued, used for the fail-fast and memoization properties.
-/

/-- Model of a parsed Python/JSON value as handled by `app.py`. -/
inductive Json where
  | null : Json
  | bool (b : Bool) : Json
  | num (n : Int) : Json
  | str (s : String) : Json
  | arr (xs : List Json) : Json
  | obj (kvs : List (String × Json)) : Json

mutual

/-- Structural equality on modelled values (Python `==` as it applies to
the values compared in `app.py`, which are only ever compared for being
the string `"type"` or for dict-key identity). -/
def Json.beq : Json → Json → Bool
  | .null, .null => true
  | .bool a, .bool b => a == b
  | .num a, .num b => a == b
  | .str a, .str b => a == b
  | .arr a, .arr b => Json.beqArr a b
  | .obj a, .obj b => Json.beqObj a b
  | _, _ => false

def Json.beqArr : List Json → List Json → Bool
  | [], [] => true
  | x :: xs, y :: ys => Json.beq x y && Json.beqArr xs ys
  | _, _ => false

def Json.beqObj : List (String × Json) → List (String × Json) → Bool
  | [], [] => true
  | kv :: xs, lw :: ys => kv.1 == lw.1 && Json.beq kv.2 lw.2 && Json.beqObj xs ys
  | _, _ => false

end

instance : BEq Json := ⟨Json.beq⟩

/-- Python truthiness (`bool(x)`) for the modelled values. -/
def pyTruthy : Json → Bool
  | .null => false
  | .bool b => b
  | .num n => n != 0
  | .str s => !s.isEmpty
  | .arr xs => !xs.isEmpty
  | .obj kvs => !kvs.isEmpty

/-- Python `x or d`: `x` if truthy, else `d`. -/
def pyOr (x d : Json) : Json := if pyTruthy x then x else d

/-- Python `j.get(k, d)`: dictionary lookup with default; raises
(`AttributeError`) when `j` is not a dict. -/
def pyGetD (j : Json) (k : String) (d : Json) : Except Unit Json :=
  match j with
  | .obj kvs => .ok ((List.lookup k kvs).getD d)
  | _ => .error ()

/-- Python `j[k]` for a string key: raises `KeyError` when the key is
missing and `TypeError` when `j` is not a dict. -/
def pySubscr (j : Json) (k : String) : Except Unit Json :=
  match j with
  | .obj kvs =>
      match List.lookup k kvs with
      | some v => .ok v
      | none => .error ()
  | _ => .error ()

/-- Python `x[0]`: first element of a list, first character of a nonempty
string; raises otherwise (`IndexError` / `TypeError` / `KeyError`). -/
def pyIndex0 : Json → Except Unit Json
  | .arr (x :: _) => .ok x
  | .str s =>
      match s.data with
      | c :: _ => .ok (.str (String.singleton c))
      | [] => .error ()
  | _ => .error ()

/-- Python `k in t` for a string `k`: key test on dicts, element test on
lists, substring test on strings; raises (`TypeError`) on other values. -/
def pyIn (k : String) (t : Json) : Except Unit Bool :=
  match t with
  | .obj kvs => .ok (kvs.any (fun kv => kv.1 == k))
  | .arr xs => .ok (xs.any (fun x => x == Json.str k))
  | .str s => .ok (k.isEmpty || (s.splitOn k).length != 1)
  | _ => .error ()

/-- Python iteration `for t in x`: elements of a list, characters of a
string, keys of a dict; raises (`TypeError`) on non-iterable values. -/
def pyIterate : Json → Except Unit (List Json)
  | .arr xs => .ok xs
  | .str s => .ok (s.data.map (fun c => .str (String.singleton c)))
  | .obj kvs => .ok (kvs.map (fun kv => .str kv.1))
  | _ => .error ()

/-- Outcome of one `requests.get` call: a transport error (the call raised),
or a response carrying a status code and the parsed JSON body
(`none` when `r.json()` raises). -/
inductive HttpOutcome where
  | transportError : HttpOutcome
  | response (status : Nat) (body : Option Json) : HttpOutcome

/-- The dictionary built by `get_weather` on a 200 response
(`app.py` lines 93-101).  Field values are the extracted JSON values;
a missing sub-field shows up as `Json.null` (Python `None`). -/
structure WeatherRecord where
  city : Json
  temp_c : Json
  feels_like_c : Json
  humidity : Json
  desc : Json
  wind_mps : Json
  icon : Json

/-- The six field extractions of `get_weather`'s result dictionary, in
source order: `temp_c`, `feels_like_c`, `humidity`, `desc`, `wind_mps`,
`icon` (`app.py` lines 95-100).  Each mirrors the corresponding
`j.get(...)...` chain; an exception anywhere aborts the whole extraction. -/
def weatherFieldVals (j : Json) : Except Unit (Json × Json × Json × Json × Json × Json) := do
  let main ← pyGetD j "main" (.obj [])
  let temp ← pyGetD main "temp" .null
  let feels ← pyGetD main "feels_like" .null
  let humidity ← pyGetD main "humidity" .null
  let w0raw ← pyGetD j "weather" (.arr [.obj []])
  let w0 ← pyIndex0 w0raw
  let desc ← pyGetD (pyOr w0 (.obj [])) "description" .null
  let wind ← pyGetD j "wind" (.obj [])
  let windSpeed ← pyGetD wind "speed" .null
  let icon ← pyGetD (pyOr w0 (.obj [])) "icon" .null
  pure (temp, feels, humidity, desc, windSpeed, icon)

/-- Builds the `get_weather` result dictionary from a 200 response body `j`;
the `city` entry is the caller's argument, not anything from the body. -/
def extractWeather (city : String) (j : Json) : Except Unit WeatherRecord :=
  (weatherFieldVals j).map (fun v =>
    ⟨.str city, v.1, v.2.1, v.2.2.1, v.2.2.2.1, v.2.2.2.2.1, v.2.2.2.2.2⟩)

/-- Body of `get_weather(city, api_key)` (`app.py` lines 72-103), with the
network modelled by `net` and instrumented with the number of network calls
issued.  Empty key: `(None, 0 calls)` before any network activity; transport
error or non-200 status or unparseable/ill-shaped body: `None` (the
`try/except` returns `None`); otherwise the extracted record. -/
def get_weather_calls (city api_key : String) (net : HttpOutcome) :
    Option WeatherRecord × Nat :=
  if api_key = "" then (none, 0)
  else
    match net with
    | .transportError => (none, 1)
    | .response status body =>
        (if status ≠ 200 then none
         else
           match body with
           | none => none
           | some j => (extractWeather city j).toOption, 1)

/-- `get_weather` proper: the returned value of one (uncached) execution. -/
def get_weather (city api_key : String) (net : HttpOutcome) : Option WeatherRecord :=
  (get_weather_calls city api_key net).1

/-! ### The `st.cache_data` memoization wrapper

`get_weather` is decorated with `@st.cache_data(show_spinner=False, ttl=60*10)`.
Per Streamlit's documented semantics, results are cached keyed by the tuple of
all function arguments — here `(city, api_key)` — and an entry expires `ttl`
seconds after it was stored.  Time is modelled as a `Nat` (seconds). -/

/-- One memoization-cache entry for the decorated `get_weather`. -/
structure WCacheEntry where
  city : String
  api_key : String
  value : Option WeatherRecord
  storedAt : Nat

/-- TTL of the `get_weather` cache: `60 * 10` seconds. -/
def weatherTTL : Nat := 60 * 10

/-- Cache lookup at time `now`: an entry hits when both arguments match and
the entry has not expired. -/
def wcacheLookup (cache : List WCacheEntry) (city api_key : String) (now : Nat) :
    Option (Option WeatherRecord) :=
  match cache.find? (fun e =>
      e.city == city && e.api_key == api_key && decide (now < e.storedAt + weatherTTL)) with
  | some e => some e.value
  | none => none

/-- One call to the decorated `get_weather` at time `now`: on a cache hit the
stored value is returned and the body is not executed (0 network calls); on a
miss the body runs and its result is stored for the argument pair.
Returns (value, new cache, number of network calls issued). -/
def get_weather_cached (cache : List WCacheEntry) (city api_key : String)
    (now : Nat) (net : HttpOutcome) :
    Option WeatherRecord × List WCacheEntry × Nat :=
  match wcacheLookup cache city api_key now with
  | some v => (v, cache, 0)
  | none =>
      let r := get_weather_calls city api_key net
      (r.1,
       ⟨city, api_key, r.1, now⟩ ::
         cache.filter (fun e => !(e.city == city && e.api_key == api_key)),
       r.2)

/-! ### The creature fetch `get_pokemon` (`app.py` lines 106-148) -/

/-- The dictionary built by `get_pokemon` on a 200 response.  `types` is the
list produced by the comprehension over `j["types"]` (its elements are
whatever `t["type"]["name"]` evaluates to); `stats` is the dict accumulated
from `j["stats"]`, keyed by the (truthy) `stat.name` values. -/
structure CreatureRecord where
  name : Json
  dex : Json
  types : List Json
  stats : List (Json × Int)
  artwork : Json

/-- `random.randint(1, 151)` (`app.py` line 114), modelled as sampling a
uniform residue from an unbounded uniform source `u`:
every window of 151 consecutive source values maps bijectively onto
`[1, 151]`, which is the uniformity claim proved about the draw. -/
def randint_1_151 (u : Nat) : Nat := 1 + u % 151

/-- The comprehension `[t["type"]["name"] for t in X if "type" in t]`:
per element, evaluate the guard, then the nested subscripts; an exception
anywhere aborts the whole comprehension. -/
def pyTypesExtract (x : Json) : Except Unit (List Json) := do
  let items ← pyIterate x
  let opts ← items.mapM (fun t => do
    let b ← pyIn "type" t
    if b then
      let ty ← pySubscr t "type"
      let nm ← pySubscr ty "name"
      pure (some nm)
    else
      pure (none : Option Json))
  pure (opts.filterMap id)

/-- Python dict assignment `stats[key] = val`: overwrite in place if the key
is already present (insertion order kept), else append. -/
def dictAssign (m : List (Json × Int)) (k : Json) (v : Int) : List (Json × Int) :=
  if m.any (fun kv => kv.1 == k) then
    m.map (fun kv => if kv.1 == k then (kv.1, v) else kv)
  else
    m ++ [(k, v)]

/-- The `stats` accumulation loop of `get_pokemon` (`app.py` lines 126-131):
keep only entries with a truthy `stat.name` and an `int` `base_stat`.
(Python's `bool` is a subclass of `int`; JSON `true`/`false` values, which the
real endpoint never produces for `base_stat`, are not modelled as ints.) -/
def pyStatsExtract (x : Json) : Except Unit (List (Json × Int)) := do
  let items ← pyIterate x
  items.foldlM (fun acc s => do
    let st ← pyGetD s "stat" (.obj [])
    let key ← pyGetD st "name" .null
    let val ← pyGetD s "base_stat" .null
    match val with
    | .num n => if pyTruthy key then pure (dictAssign acc key n) else pure acc
    | _ => pure acc) []

/-- The five field extractions of `get_pokemon`'s result dictionary, in
source order: `name`, `dex`, `types`, `stats`, `artwork`
(`app.py` lines 122-138). -/
def pokemonFieldVals (j : Json) :
    Except Unit (Json × Json × List Json × List (Json × Int) × Json) := do
  let name ← pyGetD j "name" .null
  let dex ← pyGetD j "id" .null
  let rawTypes ← pyGetD j "types" (.arr [])
  let types ← pyTypesExtract rawTypes
  let rawStats ← pyGetD j "stats" (.arr [])
  let stats ← pyStatsExtract rawStats
  let sprites ← pyGetD j "sprites" (.obj [])
  let other ← pyGetD sprites "other" (.obj [])
  let oa ← pyGetD other "official-artwork" (.obj [])
  let artwork ← pyGetD oa "front_default" .null
  pure (name, dex, types, stats, artwork)

/-- Body of `get_pokemon()` for a given random draw `pid` (the value of
`random.randint(1, 151)`), with the network modelled by `net`.
A transport error, a non-200 status, an unparseable body, or an exception
during extraction all yield `None` via the `try/except`. -/
def get_pokemon (pid : Nat) (net : HttpOutcome) : Option CreatureRecord :=
  match net with
  | .transportError => none
  | .response status body =>
      if status ≠ 200 then none
      else
        match body with
        | none => none
        | some j =>
            ((pokemonFieldVals j).map (fun v =>
              (⟨v.1, v.2.1, v.2.2.1, v.2.2.2.1, v.2.2.2.2⟩ : CreatureRecord))).toOption

/-- The `id` field of the response body, when the response carries a JSON
object (what `j.get("id")` reads); `Json.null` otherwise. -/
def responseIdField : HttpOutcome → Json
  | .response _ (some (.obj kvs)) => (List.lookup "id" kvs).getD .null
  | _ => .null

/-! ### The report composer `generate_report` (`app.py` lines 188-250) -/

/-- The whitespace characters removed by Python's `str.strip()`
(ASCII fragment; the strings stripped in `app.py` contain no exotic
Unicode whitespace). -/
def pyWS (c : Char) : Bool :=
  c == ' ' || c == '\t' || c == '\n' || c == '\r' || c == '\x0b' || c == '\x0c'

/-- Python `str.strip()` on the character list: drop whitespace from both
ends. -/
def pyStripList (cs : List Char) : List Char :=
  ((cs.dropWhile pyWS).reverse.dropWhile pyWS).reverse

/-- Python `str.strip()`. -/
def pyStrip (s : String) : String := ⟨pyStripList s.data⟩

mutual

/-- Python `repr` for the modelled values, as used when a dict or list is
interpolated into an f-string.  (String quoting is modelled without escape
processing; no string interpolated in `app.py` is constructed with escapes.) -/
def pyRepr : Json → String
  | .null => "None"
  | .bool b => if b then "True" else "False"
  | .num n => toString n
  | .str s => "\x27" ++ s ++ "\x27"
  | .arr xs => "[" ++ pyReprArr xs ++ "]"
  | .obj kvs => "\x7b" ++ pyReprObj kvs ++ "\x7d"

def pyReprArr : List Json → String
  | [] => ""
  | [x] => pyRepr x
  | x :: xs => pyRepr x ++ ", " ++ pyReprArr xs

def pyReprObj : List (String × Json) → String
  | [] => ""
  | [kv] => "\x27" ++ kv.1 ++ "\x27: " ++ pyRepr kv.2
  | kv :: kvs => "\x27" ++ kv.1 ++ "\x27: " ++ pyRepr kv.2 ++ ", " ++ pyReprObj kvs

end

/-- Python `str(x)` / f-string interpolation of a modelled value. -/
def pyStr : Json → String
  | .str s => s
  | j => pyRepr j

/-- `str()` of the accumulated stats dict (keys shown with `repr`,
values are ints). -/
def pyStrStats (m : List (Json × Int)) : String :=
  "\x7b" ++ String.intercalate ", "
    (m.map (fun kv => pyRepr kv.1 ++ ": " ++ toString kv.2)) ++ "\x7d"

/-- Python `sep.join(xs)` element check: every element must be a `str`,
otherwise a `TypeError` is raised. -/
def pyJoinStrs : List Json → Except Unit (List String)
  | [] => .ok []
  | .str s :: xs => (pyJoinStrs xs).map (fun r => s :: r)
  | _ :: _ => .error ()

/-- Python `sep.join(xs)`. -/
def pyJoin (sep : String) (xs : List Json) : Except Unit String :=
  (pyJoinStrs xs).map (String.intercalate sep)

/-- The `weather_text` block (`app.py` lines 207-214): a labeled field block
when a weather record is present (the dict is non-empty, hence truthy), the
explicit no-data marker otherwise. -/
def weatherText (w : Option WeatherRecord) : String :=
  match w with
  | some wr =>
      "- 도시: " ++ pyStr wr.city ++ "\n- 날씨: " ++ pyStr wr.desc ++
      "\n- 기온(섭씨): " ++ pyStr wr.temp_c ++ "°C / 체감: " ++ pyStr wr.feels_like_c ++
      "°C\n- 습도: " ++ pyStr wr.humidity ++ "% / 바람: " ++ pyStr wr.wind_mps ++ " m/s\n"
  | none => "- (날씨 정보 없음)\n"

/-- The `pokemon_text` block (`app.py` lines 216-222).  Joining the `types`
list raises (`TypeError`, uncaught: this runs before the `try`) when some
element is not a string. -/
def pokemonText (p : Option CreatureRecord) : Except Unit String :=
  match p with
  | some pr => do
      let ts ← pyJoin ", " (pr.types)
      pure ("- 이름: " ++ pyStr pr.name ++ " / 도감번호: " ++ pyStr pr.dex ++
            "\n- 타입: " ++ ts ++ "\n- 스탯: " ++ pyStrStats pr.stats ++ "\n")
  | none => pure "- (포켓몬 정보 없음)\n"

/-- The completed-habits line: the joined list, or the explicit
`"없음"` ("none") marker for an empty list. -/
def habitsLine (habits_checked : List String) : String :=
  if habits_checked.isEmpty then "없음" else String.intercalate ", " habits_checked

/-- The body of the `user_payload` f-string with its surrounding newlines
removed (the template starts with `"\n["` and ends with `".\n"`, so
`.strip()` removes exactly that outer newline pair; see
`pyStrip_newline_sandwich` below). -/
def corePayload (habits_checked : List String) (mood : Int)
    (wt pt : String) : String :=
  "[오늘 체크인]\n" ++
  ("- 완료한 습관: " ++ habitsLine habits_checked) ++
  "\n" ++
  ("- 기분(1~10): " ++ toString mood) ++
  "\n\n[날씨]\n" ++
  wt ++
  "\n\n[포켓몬]\n" ++
  pt ++
  "\n\n" ++
  "주의:\n- 포켓몬/날씨 정보가 없으면, 없는 상태에서도 설득력 있게 리포트를 작성해라."

/-- `user_payload` (`app.py` lines 224-237): the stripped f-string built
from the habits line, the mood, `weather_text` and `pokemon_text`. -/
def userPayload (habits_checked : List String) (mood : Int)
    (weather : Option WeatherRecord) (pokemon : Option CreatureRecord) :
    Except Unit String := do
  let wt := weatherText weather
  let pt ← pokemonText pokemon
  pure (pyStrip ("\n" ++ corePayload habits_checked mood wt pt ++ "\n"))

/-- Outcome of the `client.responses.create(...)` call for the assembled
request: success carries `resp.output_text` (`none` when that attribute is
`None`), failure carries `str(e)` for the raised exception. -/
inductive GenOutcome where
  | success (output_text : Option String) : GenOutcome
  | failure (msg : String) : GenOutcome

/-- Body of `generate_report(...)` (`app.py` lines 188-250) with the
generation service modelled by `svc` and instrumented with the number of
service calls issued.  `.error ()` models an exception escaping the function
(only possible while building `pokemon_text`, which runs before the `try`).
The empty-key check precedes everything else. -/
def generate_report_calls (openai_api_key coach_style : String)
    (habits_checked : List String) (mood : Int)
    (weather : Option WeatherRecord) (pokemon : Option CreatureRecord)
    (svc : GenOutcome) :
    Except Unit (Option String × Option String) × Nat :=
  if openai_api_key = "" then (.ok (none, some "OpenAI API Key가 필요합니다."), 0)
  else
    match userPayload habits_checked mood weather pokemon with
    | .error e => (.error e, 0)
    | .ok _ =>
        match svc with
        | .failure msg => (.ok (none, some ("OpenAI 호출 실패: " ++ msg)), 1)
        | .success t => (.ok (some (pyStrip (t.getD "")), none), 1)

/-- `generate_report` proper: the value (or escaping exception) of one
execution.  (`coach_style` only feeds the system prompt sent to the service,
which the `GenOutcome` oracle abstracts.) -/
def generate_report (openai_api_key coach_style : String)
    (habits_checked : List String) (mood : Int)
    (weather : Option WeatherRecord) (pokemon : Option CreatureRecord)
    (svc : GenOutcome) : Except Unit (Option String × Option String) :=
  (generate_report_calls openai_api_key coach_style habits_checked mood
    weather pokemon svc).1

/-! ### The achievement rate (`app.py` lines 27-33, 356-358) -/

/-- The fixed five-habit catalog `HABITS` (emoji, label). -/
def HABITS : List (String × String) :=
  [("🌅", "기상 미션"), ("💧", "물 마시기"), ("📚", "공부/독서"),
   ("🏃", "운동하기"), ("😴", "수면")]

/-- Python `round(q, 0)` (banker's rounding, round-half-to-even), as an
integer.  `round` returns a float of integral value and the enclosing
`int(...)` converts it exactly, so the two are modelled together. -/
def pyRoundHalfEven (q : ℚ) : ℤ :=
  let f : ℤ := ⌊q⌋
  if q - f < 1 / 2 then f
  else if (1 : ℚ) / 2 < q - f then f + 1
  else if f % 2 = 0 then f else f + 1

/-- `achv_rate = int(round((checked_count / len(HABITS)) * 100, 0))`
(`app.py` line 358).  Arithmetic is modelled exactly over `ℚ`; for every
possible `checked_count` (0-5) the double-precision evaluation of the
source expression yields the same exact multiple of 20, so no
floating-point deviation arises. -/
def achv_rate (checked_count : Nat) : ℤ :=
  pyRoundHalfEven ((checked_count : ℚ) / (HABITS.length : ℚ) * 100)

/-! ### Definitions used by the specification statements -/

/-- `pat` occurs as a contiguous substring of `s`. -/
def HasSubstr (s pat : String) : Prop :=
  ∃ a b : List Char, s.data = a ++ (pat.data ++ b)

/-- The data-model constraint on a creature argument of `generate_report`:
its `types` entries are strings (what `", ".join` requires). -/
def typesAllStrings : Option CreatureRecord → Prop
  | none => True
  | some pr => ∀ t ∈ pr.types, ∃ s, t = Json.str s

/-- Value of `j.get(a, {}).get(k)` seen through a top-level lookup result:
the sub-field of a present object, else Python `None`. -/
def subField (o : Option Json) (k : String) : Json :=
  match o with
  | some (.obj m) => (List.lookup k m).getD .null
  | _ => .null

/-- Value of `(j.get("weather", [{}])[0] or {}).get(k)` seen through the
top-level `"weather"` lookup result. -/
def weatherSubField (o : Option Json) (k : String) : Json :=
  match o with
  | some (.arr (x :: _)) => subField (some x) k
  | _ => .null

/-- Shape constraint: an absent key, or a JSON-object value. -/
def dictShape : Option Json → Prop
  | none => True
  | some (.obj _) => True
  | _ => False

/-- Shape constraint for the `"weather"` key: absent, or a nonempty array
whose first element is an object. -/
def weatherShape : Option Json → Prop
  | none => True
  | some (.arr (.obj _ :: _)) => True
  | _ => False

/-! ### Generic helper lemmas -/

@[simp] lemma exceptBind_ok {ε α β : Type} (a : α) (f : α → Except ε β) :
    (Except.ok a >>= f : Except ε β) = f a := rfl

@[simp] lemma exceptBind_error {ε α β : Type} (e : ε) (f : α → Except ε β) :
    ((Except.error e : Except ε α) >>= f) = .error e := rfl

@[simp] lemma exceptMap_ok {ε α β : Type} (f : α → β) (a : α) :
    (f <$> (Except.ok a : Except ε α)) = .ok (f a) := rfl

@[simp] lemma exceptMap_error {ε α β : Type} (f : α → β) (e : ε) :
    (f <$> (Except.error e : Except ε α)) = .error e := rfl

@[simp] lemma exceptPure_def {ε α : Type} (a : α) :
    (pure a : Except ε α) = .ok a := rfl

lemma append_left_ne_empty (a b : String) (ha : a ≠ "") : a ++ b ≠ "" := by
  intro h
  apply ha
  have hd := congrArg String.data h
  rw [String.data_append] at hd
  rcases List.append_eq_nil.1 hd with ⟨h1, _⟩
  exact String.ext h1

lemma pyOr_obj (m : List (String × Json)) : pyOr (.obj m) (.obj []) = .obj m := by
  cases m <;> simp [pyOr, pyTruthy]

lemma get_weather_calls_snd_le_one (city api_key : String) (net : HttpOutcome) :
    (get_weather_calls city api_key net).2 ≤ 1 := by
  unfold get_weather_calls
  split
  · simp
  · cases net <;> simp

lemma pyStrip_newline_sandwich (core : String) (c d : Char)
    (hhead : core.data.head? = some c) (hc : pyWS c = false)
    (hlast : core.data.getLast? = some d) (hd : pyWS d = false) :
    pyStrip ("\n" ++ core ++ "\n") = core := by
  obtain ⟨t, hcd⟩ : ∃ t, core.data = c :: t := by
    cases h : core.data with
    | nil => rw [h] at hhead; simp at hhead
    | cons x xs =>
        rw [h] at hhead
        simp at hhead
        exact ⟨xs, by rw [hhead]⟩
  obtain ⟨t2, hrev⟩ : ∃ t2, (core.data).reverse = d :: t2 := by
    cases h : core.data.reverse with
    | nil =>
        rw [List.reverse_eq_nil_iff] at h
        rw [h] at hlast; simp at hlast
    | cons x xs =>
        have hx : core.data.reverse.head? = some x := by rw [h]; rfl
        rw [List.head?_reverse, hlast] at hx
        simp at hx
        exact ⟨xs, by rw [hx]⟩
  apply String.ext
  show pyStripList ("\n" ++ core ++ "\n").data = core.data
  have hdata : ("\n" ++ core ++ "\n").data = '\n' :: (core.data ++ ['\n']) := by
    simp [String.data_append]
  rw [hdata]
  unfold pyStripList
  have s1 : List.dropWhile pyWS ('\n' :: (core.data ++ ['\n'])) =
      List.dropWhile pyWS (core.data ++ ['\n']) := by
    rw [List.dropWhile_cons, if_pos (by decide)]
  have s2 : List.dropWhile pyWS (core.data ++ ['\n']) = core.data ++ ['\n'] := by
    rw [hcd, List.cons_append, List.dropWhile_cons, if_neg (by rw [hc]; simp),
      ← List.cons_append]
  have s3 : (core.data ++ ['\n']).reverse = '\n' :: core.data.reverse := by
    simp
  have s4 : List.dropWhile pyWS ('\n' :: core.data.reverse) =
      List.dropWhile pyWS core.data.reverse := by
    rw [List.dropWhile_cons, if_pos (by decide)]
  have s5 : List.dropWhile pyWS core.data.reverse = core.data.reverse := by
    rw [hrev, List.dropWhile_cons, if_neg (by rw [hd]; simp)]
  rw [s1, s2, s3, s4, s5, List.reverse_reverse]

/-! ### Supporting lemmas for the payload structure -/

lemma corePayload_head (habits : List String) (mood : Int) (wt pt : String) :
    (corePayload habits mood wt pt).data.head? = some '[' := by
  simp only [corePayload, String.data_append, List.append_assoc]
  rfl

lemma corePayload_last (habits : List String) (mood : Int) (wt pt : String) :
    (corePayload habits mood wt pt).data.getLast? = some '.' := by
  simp only [corePayload, String.data_append]
  rw [List.getLast?_append_of_ne_nil _ (List.cons_ne_nil _ _)]
  rfl

lemma userPayload_eq (habits : List String) (mood : Int)
    (w : Option WeatherRecord) (p : Option CreatureRecord) (pt : String)
    (hpt : pokemonText p = .ok pt) :
    userPayload habits mood w p = .ok (corePayload habits mood (weatherText w) pt) := by
  unfold userPayload
  rw [hpt]
  show Except.ok (pyStrip ("\n" ++ corePayload habits mood (weatherText w) pt ++ "\n")) = _
  rw [pyStrip_newline_sandwich _ '[' '.' (corePayload_head habits mood _ pt) (by decide)
    (corePayload_last habits mood _ pt) (by decide)]

lemma pyJoinStrs_ok (ts : List Json) (h : ∀ t ∈ ts, ∃ s, t = Json.str s) :
    ∃ ss, pyJoinStrs ts = .ok ss := by
  induction ts with
  | nil => exact ⟨[], rfl⟩
  | cons x xs ih =>
      obtain ⟨s, rfl⟩ := h x (List.mem_cons_self x xs)
      obtain ⟨ss, hss⟩ := ih (fun t ht => h t (List.mem_cons_of_mem _ ht))
      exact ⟨s :: ss, by simp [pyJoinStrs, hss, Except.map]⟩

lemma pokemonText_ok (p : Option CreatureRecord) (h : typesAllStrings p) :
    ∃ pt, pokemonText p = .ok pt := by
  cases p with
  | none => exact ⟨_, rfl⟩
  | some pr =>
      obtain ⟨ss, hss⟩ := pyJoinStrs_ok pr.types h
      cases hres : pokemonText (some pr) with
      | ok pt => exact ⟨pt, rfl⟩
      | error e =>
          exfalso
          simp only [pokemonText, pyJoin] at hres
          rw [hss] at hres
          simp [Except.map, Except.bind] at hres

/-! ### Claims -/

/-- C1: for an empty credential, `get_weather` returns `None` and
`generate_report` returns the descriptive error pair, in both cases
issuing zero network calls. -/
theorem C1_fail_fast_empty_credential :
    (∀ city net, get_weather_calls city "" net = (none, 0)) ∧
    (∀ style habits mood w p svc,
      generate_report_calls "" style habits mood w p svc =
        (.ok (none, some "OpenAI API Key가 필요합니다."), 0)) :=
  ⟨fun _ _ => rfl, fun _ _ _ _ _ _ => rfl⟩

/-- C4: with a non-empty key, a transport error or any non-200 status makes
`get_weather` return `None`; the embedding is a total function, so no
exception escapes (the source wraps the call in `try/except`). -/
theorem C4_non200_or_transport_absent (city api_key : String) (hk : api_key ≠ "") :
    get_weather city api_key .transportError = none ∧
    ∀ status body, status ≠ 200 →
      get_weather city api_key (.response status body) = none := by
  constructor
  · simp [get_weather, get_weather_calls, hk]
  · intro status body hs
    simp [get_weather, get_weather_calls, hk, hs]

/-- Witness for C4 at a concrete unrecognized-city 404 and a transport error. -/
theorem C4_witness :
    get_weather "Atlantis" "k" .transportError = none ∧
    get_weather "Atlantis" "k" (.response 404 none) = none :=
  ⟨(C4_non200_or_transport_absent "Atlantis" "k" (by decide)).1,
   (C4_non200_or_transport_absent "Atlantis" "k" (by decide)).2 404 none (by decide)⟩

/-- C10: whenever `get_weather` returns a record, its `city` field is the
caller-supplied city string, independent of the response body. -/
theorem C10_city_is_argument (city api_key : String) (net : HttpOutcome)
    (rec : WeatherRecord) (h : get_weather city api_key net = some rec) :
    rec.city = .str city := by
  unfold get_weather get_weather_calls at h
  split at h
  · simp at h
  · cases net with
    | transportError => simp at h
    | response status body =>
        simp only at h
        split at h
        · simp at h
        · cases body with
          | none => simp at h
          | some j =>
              simp only [extractWeather] at h
              cases hv : weatherFieldVals j with
              | error e => rw [hv] at h; simp [Except.map, Except.toOption] at h
              | ok v =>
                  rw [hv] at h
                  simp [Except.map, Except.toOption] at h
                  rw [← h]

/-- Witness for C10: a 200 response with an empty JSON object body (which
even contains no city) yields a record whose city is the argument. -/
theorem C10_witness :
    (get_weather "Jeju" "k" (.response 200 (some (.obj []))) =
      some ⟨.str "Jeju", .null, .null, .null, .null, .null, .null⟩) ∧
    (⟨.str "Jeju", .null, .null, .null, .null, .null, .null⟩ : WeatherRecord).city =
      .str "Jeju" :=
  ⟨rfl, C10_city_is_argument "Jeju" "k" (.response 200 (some (.obj []))) _ rfl⟩

/-- C8: for a duplicate-free selection out of the five-habit catalog, the
computed achievement rate is exactly 20 percent per checked habit. -/
theorem C8_rate_20_per_habit (checked : List String) (hnd : checked.Nodup)
    (hsub : checked ⊆ HABITS.map Prod.snd) :
    achv_rate checked.length = 20 * checked.length := by
  have hcard : checked.toFinset.card = checked.length := List.toFinset_card_of_nodup hnd
  have hsub2 : checked.toFinset ⊆ (HABITS.map Prod.snd).toFinset := by
    intro a ha
    rw [List.mem_toFinset] at ha ⊢
    exact hsub ha
  have h5 : checked.length ≤ 5 := by
    have h1 := Finset.card_le_card hsub2
    have h2 : (HABITS.map Prod.snd).toFinset.card ≤ 5 := by decide
    omega
  set k := checked.length with hk
  interval_cases k <;> norm_num [achv_rate, pyRoundHalfEven, HABITS]

/-- Witness for C8: the two spec scenarios, 4 habits checked and none. -/
theorem C8_witness : achv_rate 4 = 80 ∧ achv_rate 0 = 0 := by
  constructor
  · have h := C8_rate_20_per_habit ["기상 미션", "물 마시기", "공부/독서", "운동하기"]
      (by decide) (by decide)
    simpa using h
  · have h := C8_rate_20_per_habit [] (by decide) (by decide)
    simpa using h

/-- C3 (amended): on a 200 response whose body is a JSON object of the
documented shape, `get_weather` returns a present record in which every
missing sub-field is `Json.null` for that field only. -/
theorem C3_missing_subfields_absent (city api_key : String)
    (kvs : List (String × Json)) (hk : api_key ≠ "")
    (hm : dictShape (List.lookup "main" kvs))
    (hw : weatherShape (List.lookup "weather" kvs))
    (hwd : dictShape (List.lookup "wind" kvs)) :
    get_weather city api_key (.response 200 (some (.obj kvs))) =
      some ⟨.str city,
        subField (List.lookup "main" kvs) "temp",
        subField (List.lookup "main" kvs) "feels_like",
        subField (List.lookup "main" kvs) "humidity",
        weatherSubField (List.lookup "weather" kvs) "description",
        subField (List.lookup "wind" kvs) "speed",
        weatherSubField (List.lookup "weather" kvs) "icon"⟩ ∧
    (List.lookup "main" kvs = none →
      subField (List.lookup "main" kvs) "temp" = .null ∧
      subField (List.lookup "main" kvs) "feels_like" = .null ∧
      subField (List.lookup "main" kvs) "humidity" = .null) ∧
    (List.lookup "weather" kvs = none →
      weatherSubField (List.lookup "weather" kvs) "description" = .null ∧
      weatherSubField (List.lookup "weather" kvs) "icon" = .null) ∧
    (List.lookup "wind" kvs = none →
      subField (List.lookup "wind" kvs) "speed" = .null) := by
  refine ⟨?_, fun h => by rw [h]; exact ⟨rfl, rfl, rfl⟩,
    fun h => by rw [h]; exact ⟨rfl, rfl⟩, fun h => by rw [h]; rfl⟩
  obtain hmain | ⟨m, hmain⟩ :
      List.lookup "main" kvs = none ∨ ∃ m, List.lookup "main" kvs = some (.obj m) := by
    cases h : List.lookup "main" kvs with
    | none => exact Or.inl rfl
    | some j =>
        rw [h] at hm
        cases j <;> simp [dictShape] at hm
        exact Or.inr ⟨_, rfl⟩
  all_goals
    obtain hwe | ⟨wm, wrest, hwe⟩ :
        List.lookup "weather" kvs = none ∨
          ∃ wm wrest, List.lookup "weather" kvs = some (.arr (.obj wm :: wrest)) := by
      cases h : List.lookup "weather" kvs with
      | none => exact Or.inl rfl
      | some j =>
          rw [h] at hw
          match j with
          | .arr (.obj wm :: wrest) => exact Or.inr ⟨wm, wrest, rfl⟩
          | .null | .bool _ | .num _ | .str _ | .obj _ => simp [weatherShape] at hw
          | .arr [] => simp [weatherShape] at hw
          | .arr (.null :: _) | .arr (.bool _ :: _) | .arr (.num _ :: _)
          | .arr (.str _ :: _) | .arr (.arr _ :: _) => simp [weatherShape] at hw
  all_goals
    obtain hwind | ⟨wd, hwind⟩ :
        List.lookup "wind" kvs = none ∨ ∃ wd, List.lookup "wind" kvs = some (.obj wd) := by
      cases h : List.lookup "wind" kvs with
      | none => exact Or.inl rfl
      | some j =>
          rw [h] at hwd
          cases j <;> simp [dictShape] at hwd
          exact Or.inr ⟨_, rfl⟩
  all_goals
    simp [get_weather, get_weather_calls, hk, extractWeather, weatherFieldVals,
      pyGetD, pyIndex0, hmain, hwe, hwind, subField, weatherSubField,
      Except.map, Except.toOption, Except.bind]
  all_goals first
    | rfl
    | (cases wm <;> rfl)

/-- C3 counterexample: a 200 response whose body is a JSON object with an
empty `weather` array (so the sub-field `weather[0]` is missing) makes the
whole record absent, contradicting "a missing sub-field never makes the
whole record absent". -/
theorem C3_counterexample :
    get_weather "Seoul" "k"
      (.response 200 (some (.obj [("weather", .arr [])]))) = none := rfl

/-- Witness for C3 at a body containing only `main.temp`. -/
theorem C3_witness :
    get_weather "Seoul" "k"
        (.response 200 (some (.obj [("main", .obj [("temp", .num 21)])]))) =
      some ⟨.str "Seoul",
        subField (List.lookup "main" [("main", Json.obj [("temp", Json.num 21)])]) "temp",
        subField (List.lookup "main" [("main", Json.obj [("temp", Json.num 21)])]) "feels_like",
        subField (List.lookup "main" [("main", Json.obj [("temp", Json.num 21)])]) "humidity",
        weatherSubField (List.lookup "weather" [("main", Json.obj [("temp", Json.num 21)])]) "description",
        subField (List.lookup "wind" [("main", Json.obj [("temp", Json.num 21)])]) "speed",
        weatherSubField (List.lookup "weather" [("main", Json.obj [("temp", Json.num 21)])]) "icon"⟩ :=
  (C3_missing_subfields_absent "Seoul" "k" _ (by decide)
    (by exact trivial) (by exact trivial) (by exact trivial)).1

lemma pokemonFieldVals_obj (kvs : List (String × Json)) :
    pokemonFieldVals (.obj kvs) = (do
      let types ← pyTypesExtract ((List.lookup "types" kvs).getD (.arr []))
      let stats ← pyStatsExtract ((List.lookup "stats" kvs).getD (.arr []))
      let other ← pyGetD ((List.lookup "sprites" kvs).getD (.obj [])) "other" (.obj [])
      let oa ← pyGetD other "official-artwork" (.obj [])
      let artwork ← pyGetD oa "front_default" .null
      pure ((List.lookup "name" kvs).getD .null, (List.lookup "id" kvs).getD .null,
        types, stats, artwork)) := rfl

lemma pokemonFieldVals_dex (kvs : List (String × Json))
    (v : Json × Json × List Json × List (Json × Int) × Json)
    (h : pokemonFieldVals (.obj kvs) = .ok v) :
    v.2.1 = (List.lookup "id" kvs).getD .null := by
  rw [pokemonFieldVals_obj] at h
  cases ht : pyTypesExtract ((List.lookup "types" kvs).getD (.arr [])) with
  | error e => rw [ht] at h; simp at h
  | ok types =>
  rw [ht] at h
  simp only [exceptBind_ok] at h
  cases hs : pyStatsExtract ((List.lookup "stats" kvs).getD (.arr [])) with
  | error e => rw [hs] at h; simp at h
  | ok stats =>
  rw [hs] at h
  simp only [exceptBind_ok] at h
  cases ho : pyGetD ((List.lookup "sprites" kvs).getD (.obj [])) "other" (.obj []) with
  | error e => rw [ho] at h; simp at h
  | ok otherv =>
  rw [ho] at h
  simp only [exceptBind_ok] at h
  cases hoa : pyGetD otherv "official-artwork" (.obj []) with
  | error e => rw [hoa] at h; simp at h
  | ok oav =>
  rw [hoa] at h
  simp only [exceptBind_ok] at h
  cases ha : pyGetD oav "front_default" .null with
  | error e => rw [ha] at h; simp at h
  | ok artwork =>
  rw [ha] at h
  simp only [exceptBind_ok, exceptPure_def] at h
  injection h with hh
  rw [← hh]

/-- C2 (amended): the random draw is uniform on `[1, 151]` (every window of
151 consecutive source values hits each identifier exactly once), and
`get_pokemon` either returns absent or a record whose `dex` index equals
the `id` field of the service response body — which is the drawn identifier
exactly when the service echoes the requested identifier. -/
theorem C2_uniform_draw_and_index (pid : Nat) (net : HttpOutcome) :
    (∀ u, u < 151 → 1 ≤ randint_1_151 u ∧ randint_1_151 u ≤ 151) ∧
    (∀ v, 1 ≤ v → v ≤ 151 →
      ((Finset.range 151).filter (fun u => randint_1_151 u = v)).card = 1) ∧
    (get_pokemon pid net = none ∨
      ∃ rec, get_pokemon pid net = some rec ∧ rec.dex = responseIdField net ∧
        (responseIdField net = .num pid → rec.dex = .num pid)) := by
  refine ⟨?_, ?_, ?_⟩
  · intro u hu
    unfold randint_1_151
    omega
  · intro v h1 h2
    have hcongr : ∀ u ∈ Finset.range 151, (randint_1_151 u = v) ↔ (u = v - 1) := by
      intro u hu
      rw [Finset.mem_range] at hu
      unfold randint_1_151
      omega
    rw [Finset.filter_congr hcongr, Finset.filter_eq']
    rw [if_pos (Finset.mem_range.2 (by omega))]
    rfl
  · cases net with
    | transportError => exact Or.inl rfl
    | response status body =>
        by_cases hst : status = 200
        · subst hst
          cases body with
          | none => exact Or.inl rfl
          | some j =>
              cases j with
              | obj kvs =>
                  cases hfv : pokemonFieldVals (.obj kvs) with
                  | error e =>
                      left
                      simp [get_pokemon, hfv, Except.map, Except.toOption]
                  | ok v =>
                      right
                      refine ⟨⟨v.1, v.2.1, v.2.2.1, v.2.2.2.1, v.2.2.2.2⟩, ?_, ?_, ?_⟩
                      · simp [get_pokemon, hfv, Except.map, Except.toOption]
                      · simpa [responseIdField] using pokemonFieldVals_dex kvs v hfv
                      · intro hid
                        rw [← hid]
                        simpa [responseIdField] using pokemonFieldVals_dex kvs v hfv
              | null => exact Or.inl rfl
              | bool b => exact Or.inl rfl
              | num n => exact Or.inl rfl
              | str st => exact Or.inl rfl
              | arr xs => exact Or.inl rfl
        · left
          simp [get_pokemon, hst]

/-- Witness for C2 at concrete inputs: draw bounds at source value 3,
exactly one source value in a window yields identifier 151, and a transport
error yields absent. -/
theorem C2_witness :
    (1 ≤ randint_1_151 3 ∧ randint_1_151 3 ≤ 151) ∧
    ((Finset.range 151).filter (fun u => randint_1_151 u = 151)).card = 1 ∧
    (get_pokemon 7 .transportError = none ∨
      ∃ rec, get_pokemon 7 .transportError = some rec ∧
        rec.dex = responseIdField .transportError ∧
        (responseIdField .transportError = .num 7 → rec.dex = .num 7)) :=
  ⟨(C2_uniform_draw_and_index 7 .transportError).1 3 (by decide),
   (C2_uniform_draw_and_index 7 .transportError).2.1 151 (by decide) (by decide),
   (C2_uniform_draw_and_index 7 .transportError).2.2⟩

/-- C2 counterexample: the code takes the record index from the response
body, not from the drawn identifier — with draw 1 and a body claiming
`id = 2`, a present record with index 2 ≠ 1 is returned. -/
theorem C2_counterexample :
    get_pokemon 1 (.response 200 (some (.obj [("id", .num 2)]))) =
      some ⟨.null, .num 2, [], [], .null⟩ ∧ Json.num 2 ≠ Json.num 1 :=
  ⟨rfl, by simp⟩

/-- C5 (amended): with a non-empty key and a creature argument whose types
are strings (as the data model requires), every service failure is caught
and returned as an error string embedding the underlying failure
description, and every success returns the output text stripped of
surrounding whitespace; no exception escapes. -/
theorem C5_service_errors_caught (api_key style : String) (habits : List String)
    (mood : Int) (w : Option WeatherRecord) (p : Option CreatureRecord)
    (svc : GenOutcome) (hk : api_key ≠ "") (ht : typesAllStrings p) :
    (∃ r, generate_report api_key style habits mood w p svc = .ok r) ∧
    (∀ msg, svc = .failure msg →
      generate_report api_key style habits mood w p svc =
        .ok (none, some ("OpenAI 호출 실패: " ++ msg)) ∧
      HasSubstr ("OpenAI 호출 실패: " ++ msg) msg) ∧
    (∀ t, svc = .success t →
      generate_report api_key style habits mood w p svc =
        .ok (some (pyStrip (t.getD "")), none)) := by
  obtain ⟨pt, hpt⟩ := pokemonText_ok p ht
  have hup := userPayload_eq habits mood w p pt hpt
  have hbase : generate_report api_key style habits mood w p svc =
      (match svc with
       | .failure msg => .ok (none, some ("OpenAI 호출 실패: " ++ msg))
       | .success t => .ok (some (pyStrip (t.getD "")), none)) := by
    unfold generate_report generate_report_calls
    rw [if_neg hk, hup]
    cases svc <;> rfl
  refine ⟨?_, ?_, ?_⟩
  · rw [hbase]
    cases svc with
    | failure msg => exact ⟨_, rfl⟩
    | success t => exact ⟨_, rfl⟩
  · intro msg hmsg
    subst hmsg
    exact ⟨by rw [hbase], "OpenAI 호출 실패: ".data, [], by simp [String.data_append]⟩
  · intro t hts
    subst hts
    rw [hbase]

/-- C5 counterexample: with a non-empty key, a creature record whose
`types` list holds a non-string makes `", ".join` raise before the `try`,
so the service failure is never turned into an error pair — an unhandled
fault escapes. -/
theorem C5_counterexample :
    generate_report "k" "스파르타 코치" [] 5 none
      (some ⟨.null, .null, [.arr []], [], .null⟩) (.failure "boom") = .error () := rfl

/-- Witness for C5 at a concrete failing service call. -/
theorem C5_witness :
    generate_report "k" "스파르타 코치" [] 5 none none (.failure "boom") =
      .ok (none, some ("OpenAI 호출 실패: " ++ "boom")) ∧
    HasSubstr ("OpenAI 호출 실패: " ++ "boom") "boom" :=
  (C5_service_errors_caught "k" "스파르타 코치" [] 5 none none (.failure "boom")
    (by decide) (by exact trivial)).2.1 "boom" rfl

/-- C9 (amended): provided the creature argument satisfies the data model
(or the key is empty, in which case the fail-fast branch returns first),
`generate_report` always returns a pair with exactly one component present:
either no text and a non-empty error string, or a text and no error. -/
theorem C9_exactly_one_component (api_key style : String) (habits : List String)
    (mood : Int) (w : Option WeatherRecord) (p : Option CreatureRecord)
    (svc : GenOutcome) (h : api_key = "" ∨ typesAllStrings p) :
    ∃ txt err, generate_report api_key style habits mood w p svc = .ok (txt, err) ∧
      ((txt = none ∧ ∃ e, err = some e ∧ e ≠ "") ∨
        ((∃ s, txt = some s) ∧ err = none)) := by
  by_cases hk : api_key = ""
  · subst hk
    exact ⟨none, some "OpenAI API Key가 필요합니다.", rfl,
      Or.inl ⟨rfl, _, rfl, by decide⟩⟩
  · rcases h with h | h
    · exact absurd h hk
    obtain ⟨pt, hpt⟩ := pokemonText_ok p h
    have hup := userPayload_eq habits mood w p pt hpt
    cases svc with
    | failure msg =>
        refine ⟨none, some ("OpenAI 호출 실패: " ++ msg), ?_, ?_⟩
        · unfold generate_report generate_report_calls
          rw [if_neg hk, hup]
        · exact Or.inl ⟨rfl, _, rfl, append_left_ne_empty _ _ (by decide)⟩
    | success t =>
        refine ⟨some (pyStrip (t.getD "")), none, ?_, Or.inr ⟨⟨_, rfl⟩, rfl⟩⟩
        unfold generate_report generate_report_calls
        rw [if_neg hk, hup]

/-- C9 counterexample: a creature record with a non-string `types` entry
makes `generate_report` raise instead of returning any pair. -/
theorem C9_counterexample :
    generate_report "x" "따뜻한 멘토" [] 5 none
      (some ⟨.null, .null, [.num 5], [], .null⟩) (.success (some "hi")) =
      .error () := rfl

/-- Witness for C9 on both branches: empty key, and a successful call. -/
theorem C9_witness :
    (∃ txt err, generate_report "" "따뜻한 멘토" [] 5 none none (.failure "x") =
      .ok (txt, err) ∧
      ((txt = none ∧ ∃ e, err = some e ∧ e ≠ "") ∨
        ((∃ s, txt = some s) ∧ err = none))) ∧
    (∃ txt err, generate_report "k" "따뜻한 멘토" [] 5 none none (.success none) =
      .ok (txt, err) ∧
      ((txt = none ∧ ∃ e, err = some e ∧ e ≠ "") ∨
        ((∃ s, txt = some s) ∧ err = none))) :=
  ⟨C9_exactly_one_component "" "따뜻한 멘토" [] 5 none none (.failure "x")
      (Or.inl rfl),
   C9_exactly_one_component "k" "따뜻한 멘토" [] 5 none none (.success none)
      (Or.inr (by exact trivial))⟩

lemma str_append_assoc (a b c : String) : a ++ b ++ c = a ++ (b ++ c) := by
  apply String.ext
  simp [String.data_append]

lemma hasSubstr_of_eq (s x pat z : String) (h : s = x ++ (pat ++ z)) :
    HasSubstr s pat :=
  ⟨x.data, z.data, by rw [h]; simp [String.data_append]⟩

/-- C7: whenever the user-content block is built (the join of the creature
types succeeds), it contains the completed-habits line (or the explicit
"없음"/none marker), the mood value, the labeled weather block (or its
no-data marker), the creature block (or its no-data marker), and the
closing instruction that missing weather/creature data must not block the
report. -/
theorem C7_payload_structure (habits : List String) (mood : Int)
    (w : Option WeatherRecord) (p : Option CreatureRecord) (pt : String)
    (hpt : pokemonText p = .ok pt) :
    userPayload habits mood w p = .ok (corePayload habits mood (weatherText w) pt) ∧
    HasSubstr (corePayload habits mood (weatherText w) pt)
      ("- 완료한 습관: " ++ habitsLine habits) ∧
    (habits = [] → habitsLine habits = "없음") ∧
    (habits ≠ [] → habitsLine habits = String.intercalate ", " habits) ∧
    HasSubstr (corePayload habits mood (weatherText w) pt)
      ("- 기분(1~10): " ++ toString mood) ∧
    HasSubstr (corePayload habits mood (weatherText w) pt) (weatherText w) ∧
    (w = none → weatherText w = "- (날씨 정보 없음)\n") ∧
    (∀ wr, w = some wr → weatherText w =
      "- 도시: " ++ pyStr wr.city ++ "\n- 날씨: " ++ pyStr wr.desc ++
      "\n- 기온(섭씨): " ++ pyStr wr.temp_c ++ "°C / 체감: " ++ pyStr wr.feels_like_c ++
      "°C\n- 습도: " ++ pyStr wr.humidity ++ "% / 바람: " ++ pyStr wr.wind_mps ++ " m/s\n") ∧
    HasSubstr (corePayload habits mood (weatherText w) pt) pt ∧
    (p = none → pt = "- (포켓몬 정보 없음)\n") ∧
    (∀ pr, p = some pr → ∃ ts, pyJoin ", " pr.types = .ok ts ∧
      pt = "- 이름: " ++ pyStr pr.name ++ " / 도감번호: " ++ pyStr pr.dex ++
        "\n- 타입: " ++ ts ++ "\n- 스탯: " ++ pyStrStats pr.stats ++ "\n") ∧
    HasSubstr (corePayload habits mood (weatherText w) pt)
      "주의:\n- 포켓몬/날씨 정보가 없으면, 없는 상태에서도 설득력 있게 리포트를 작성해라." := by
  refine ⟨userPayload_eq habits mood w p pt hpt, ?_, ?_, ?_, ?_, ?_, ?_, ?_, ?_, ?_, ?_, ?_⟩
  · exact hasSubstr_of_eq _ "[오늘 체크인]\n"
      ("- 완료한 습관: " ++ habitsLine habits)
      ("\n" ++ ("- 기분(1~10): " ++ toString mood) ++ "\n\n[날씨]\n" ++ weatherText w ++
        "\n\n[포켓몬]\n" ++ pt ++ "\n\n" ++
        "주의:\n- 포켓몬/날씨 정보가 없으면, 없는 상태에서도 설득력 있게 리포트를 작성해라.")
      (by simp [corePayload, str_append_assoc])
  · intro h
    subst h
    rfl
  · intro h
    simp [habitsLine, List.isEmpty_iff, h]
  · exact hasSubstr_of_eq _
      ("[오늘 체크인]\n" ++ ("- 완료한 습관: " ++ habitsLine habits) ++ "\n")
      ("- 기분(1~10): " ++ toString mood)
      ("\n\n[날씨]\n" ++ weatherText w ++ "\n\n[포켓몬]\n" ++ pt ++ "\n\n" ++
        "주의:\n- 포켓몬/날씨 정보가 없으면, 없는 상태에서도 설득력 있게 리포트를 작성해라.")
      (by simp [corePayload, str_append_assoc])
  · exact hasSubstr_of_eq _
      ("[오늘 체크인]\n" ++ ("- 완료한 습관: " ++ habitsLine habits) ++ "\n" ++
        ("- 기분(1~10): " ++ toString mood) ++ "\n\n[날씨]\n")
      (weatherText w)
      ("\n\n[포켓몬]\n" ++ pt ++ "\n\n" ++
        "주의:\n- 포켓몬/날씨 정보가 없으면, 없는 상태에서도 설득력 있게 리포트를 작성해라.")
      (by simp [corePayload, str_append_assoc])
  · intro h
    subst h
    rfl
  · intro wr h
    subst h
    rfl
  · exact hasSubstr_of_eq _
      ("[오늘 체크인]\n" ++ ("- 완료한 습관: " ++ habitsLine habits) ++ "\n" ++
        ("- 기분(1~10): " ++ toString mood) ++ "\n\n[날씨]\n" ++ weatherText w ++
        "\n\n[포켓몬]\n")
      pt
      ("\n\n" ++
        "주의:\n- 포켓몬/날씨 정보가 없으면, 없는 상태에서도 설득력 있게 리포트를 작성해라.")
      (by simp [corePayload, str_append_assoc])
  · intro h
    subst h
    simp only [pokemonText, exceptPure_def] at hpt
    injection hpt with hh
    exact hh.symm
  · intro pr h
    subst h
    simp only [pokemonText] at hpt
    cases hj : pyJoin ", " pr.types with
    | error e => rw [hj] at hpt; simp at hpt
    | ok ts =>
        rw [hj] at hpt
        simp only [exceptBind_ok, exceptPure_def] at hpt
        injection hpt with hh
        exact ⟨ts, rfl, hh.symm⟩
  · exact hasSubstr_of_eq _
      ("[오늘 체크인]\n" ++ ("- 완료한 습관: " ++ habitsLine habits) ++ "\n" ++
        ("- 기분(1~10): " ++ toString mood) ++ "\n\n[날씨]\n" ++ weatherText w ++
        "\n\n[포켓몬]\n" ++ pt ++ "\n\n")
      "주의:\n- 포켓몬/날씨 정보가 없으면, 없는 상태에서도 설득력 있게 리포트를 작성해라."
      ""
      (by simp [corePayload, str_append_assoc])

/-- Witness for C7 on a concrete check-in with both fetches absent. -/
theorem C7_witness :
    userPayload ["공부/독서"] 7 none none =
      .ok (corePayload ["공부/독서"] 7 (weatherText none) "- (포켓몬 정보 없음)\n") ∧
    HasSubstr (corePayload ["공부/독서"] 7 (weatherText none) "- (포켓몬 정보 없음)\n")
      ("- 완료한 습관: " ++ habitsLine ["공부/독서"]) :=
  ⟨(C7_payload_structure ["공부/독서"] 7 none none _ rfl).1,
   (C7_payload_structure ["공부/독서"] 7 none none _ rfl).2.1⟩

/-- C6 (amended): the memoization cache is keyed by the argument pair
(city, api_key).  Starting from an empty cache, two calls with the same
city AND the same key, the second within the 10-minute window, issue at
most one network call in total, and the second call returns the first
call's (cached) value. -/
theorem C6_memoized_by_city_and_key (city api_key : String) (t1 t2 : Nat)
    (net1 net2 : HttpOutcome) (h : t2 < t1 + weatherTTL) :
    ((get_weather_cached ((get_weather_cached [] city api_key t1 net1).2.1)
        city api_key t2 net2).1 =
      (get_weather_cached [] city api_key t1 net1).1) ∧
    ((get_weather_cached [] city api_key t1 net1).2.2 +
      (get_weather_cached ((get_weather_cached [] city api_key t1 net1).2.1)
        city api_key t2 net2).2.2 ≤ 1) := by
  have h1 : get_weather_cached [] city api_key t1 net1 =
      ((get_weather_calls city api_key net1).1,
       [⟨city, api_key, (get_weather_calls city api_key net1).1, t1⟩],
       (get_weather_calls city api_key net1).2) := rfl
  have h2 : get_weather_cached
      [⟨city, api_key, (get_weather_calls city api_key net1).1, t1⟩]
      city api_key t2 net2 =
      ((get_weather_calls city api_key net1).1,
       [⟨city, api_key, (get_weather_calls city api_key net1).1, t1⟩], 0) := by
    simp [get_weather_cached, wcacheLookup, h]
  rw [h1, h2]
  exact ⟨rfl, by simpa using get_weather_calls_snd_le_one city api_key net1⟩

/-- C6 counterexample: two calls for the same city within the window but
with different keys are cached under different argument pairs — two
network calls are issued, refuting "cache keyed by city (alone)". -/
theorem C6_counterexample :
    (get_weather_cached [] "Seoul" "a" 0 .transportError).2.2 +
    (get_weather_cached (get_weather_cached [] "Seoul" "a" 0 .transportError).2.1
      "Seoul" "b" 5 .transportError).2.2 = 2 := rfl

/-- Witness for C6: same city, same key, 60 seconds apart. -/
theorem C6_witness :
    ((get_weather_cached ((get_weather_cached [] "Seoul" "k" 0 .transportError).2.1)
        "Seoul" "k" 60 .transportError).1 =
      (get_weather_cached [] "Seoul" "k" 0 .transportError).1) ∧
    ((get_weather_cached [] "Seoul" "k" 0 .transportError).2.2 +
      (get_weather_cached ((get_weather_cached [] "Seoul" "k" 0 .transportError).2.1)
        "Seoul" "k" 60 .transportError).2.2 ≤ 1) :=
  C6_memoized_by_city_and_key "Seoul" "k" 0 60 .transportError .transportError
    (by decide)
